import Mathlib

/-!
Verification development for the pose-fusion and session-state core of the
PhoneVR ALVR client (`alvr_main.cpp`).

The embedding mirrors the C++ source:
* numeric values (`float` in the source) are idealized as real numbers `ℝ`
  for the pose/barometer pipeline; the session state machine, the JSON
  foveation settings and the dispatcher timing use exact `ℚ`/`ℤ`/`ℕ`/`Bool`
  and are fully executable;
* the process-global mutable context `CTX` becomes explicit state records
  (`PoseCtx`, `SessionCtx`) threaded through the functions;
* C++ exceptions (`throw std::runtime_error`, `nlohmann::json` exceptions)
  become `Except`;
* external collaborators (Cardboard head tracker, ARCore session, the ALVR
  runtime) are modelled as explicit inputs carrying the values the source
  reads from them for one call.
-/

namespace PhoneVR

/-! ## Basic data model: quaternions, vectors, poses (over ℝ) -/

/-- `AlvrQuat` from the source: orientation quaternion with fields x, y, z, w. -/
structure AlvrQuat where
  x : ℝ
  y : ℝ
  z : ℝ
  w : ℝ


attribute [ext] AlvrQuat

/-- A 3-vector, modelling the `float[3]` position arrays of the source
(index 0 ↦ x, 1 ↦ y, 2 ↦ z). -/
structure Vec3 where
  x : ℝ
  y : ℝ
  z : ℝ


attribute [ext] Vec3

/-- `AlvrPose`: orientation plus position.  `AlvrPose pose = {}` in the
source zero-initializes both. -/
structure AlvrPose where
  orientation : AlvrQuat
  position : Vec3


attribute [ext] AlvrPose

/-- The zero quaternion (value of a zero-initialized `AlvrQuat`). -/
def zeroQuat : AlvrQuat := ⟨0, 0, 0, 0⟩

/-- The zero vector (value of a zero-initialized `float[3]`). -/
def zeroVec : Vec3 := ⟨0, 0, 0⟩

/-- A zero-initialized `AlvrPose` (`AlvrPose pose = {};`). -/
def zeroPose : AlvrPose := ⟨zeroQuat, zeroVec⟩

/-- `const float FLOOR_HEIGHT = 1.5;` -/
def FLOOR_HEIGHT : ℝ := 1.5

/-- `inverseQuat`: inverse of a unit quaternion, `{-q.x, -q.y, -q.z, q.w}`. -/
def inverseQuat (q : AlvrQuat) : AlvrQuat := ⟨-q.x, -q.y, -q.z, q.w⟩

/-- `cross`: cross product `a × b` of two 3-vectors, exactly as in the source. -/
def cross (a b : Vec3) : Vec3 :=
  ⟨a.y * b.z - a.z * b.y, a.z * b.x - a.x * b.z, a.x * b.y - a.y * b.x⟩

/-- `quatVecMultiply`: rotates vector `v` by quaternion `q` using
`out = v + 2 * (q.w * (r × v) + r × (r × v))` with `r = (q.x, q.y, q.z)`. -/
def quatVecMultiply (q : AlvrQuat) (v : Vec3) : Vec3 :=
  let r : Vec3 := ⟨q.x, q.y, q.z⟩
  let rv := cross r v
  let rrv := cross r rv
  ⟨v.x + 2 * (q.w * rv.x + rrv.x),
   v.y + 2 * (q.w * rv.y + rrv.y),
   v.z + 2 * (q.w * rv.z + rrv.z)⟩

/-- `offsetPosWithQuat`: rotates `offset` by `q` and subtracts it from the
in/out position `outPos`, adding `FLOOR_HEIGHT` back on the y component:
`outPos[1] -= rotatedOffset[1] - FLOOR_HEIGHT`. -/
def offsetPosWithQuat (q : AlvrQuat) (offset : Vec3) (outPos : Vec3) : Vec3 :=
  let rotatedOffset := quatVecMultiply q offset
  ⟨outPos.x - rotatedOffset.x,
   outPos.y - (rotatedOffset.y - FLOOR_HEIGHT),
   outPos.z - rotatedOffset.z⟩

/-! ## Barometer-based altitude tracking -/

/-- `float SEA_LEVEL_PRESSURE = 1013.25f;` -/
def SEA_LEVEL_PRESSURE : ℝ := 1013.25

/-- `pressureToAltitude`: the barometric formula
`44330 * (1 - (p / p0) ^ (1 / 5.255))` (real-power idealization of
`powf`). -/
noncomputable def pressureToAltitude (p0 p : ℝ) : ℝ :=
  44330 * (1 - (p / p0) ^ ((1 : ℝ) / 5.255))

/-! ## The tracking context

The fields of the process-global `CTX` that the pose pipeline reads and
writes, together with the two configuration globals
(`useARCoreOrientation`, `useBarometerAltitudeTracking`) and the ambient
facts the source queries (`CTX.arSession != nullptr`,
`eglGetCurrentContext() != EGL_NO_CONTEXT`). -/

structure PoseCtx where
  arcoreEnabled : Bool
  arSessionPresent : Bool
  eglContextPresent : Bool
  useARCoreOrientation : Bool
  useBarometerAltitudeTracking : Bool
  lastOrientation : AlvrQuat
  lastPosition : Vec3
  floorAltitude : ℝ
  currentPressure : ℝ

/-- Source default for `useARCoreOrientation` (hard-coded `false`). -/
def useARCoreOrientationDefault : Bool := false

/-- Source default for `useBarometerAltitudeTracking` (hard-coded `true`). -/
def useBarometerAltitudeTrackingDefault : Bool := true

/-- `getAltitudeFromBarometer`: current altitude relative to the calibrated
floor altitude. -/
noncomputable def getAltitudeFromBarometer (ctx : PoseCtx) : ℝ :=
  pressureToAltitude SEA_LEVEL_PRESSURE ctx.currentPressure - ctx.floorAltitude

/-- One barometric pressure sample, as processed by the body of the loop in
`onSensorChanged`: if `floorAltitude == 0` (the uncalibrated sentinel) it is
set to the altitude of this sample, and `currentPressure` is always
updated.  (The `tmp_minPressure`/`tmp_maxPressure` bookkeeping is unused by
the rest of the program and omitted.) -/
noncomputable def onPressureSample (ctx : PoseCtx) (p : ℝ) : PoseCtx :=
  let ctx1 :=
    if ctx.floorAltitude = 0 then
      { ctx with floorAltitude := pressureToAltitude SEA_LEVEL_PRESSURE p }
    else ctx
  { ctx1 with currentPressure := p }

/-! ## getPose -/

/-- The values the source reads from the ARCore session during one
`getPose` call: the result of `ArSession_update`, the camera tracking
state, and the raw camera pose `{qx, qy, qz, qw, tx, ty, tz}`. -/
structure ArReadings where
  updateSuccess : Bool
  trackingOk : Bool
  camOrientation : AlvrQuat
  camPosition : Vec3

/-- The raw orientation quaternion the source reads from
`CardboardHeadTracker_getPose` for this call (its position output is
ignored by the source). -/
def headTrackerQuat (q : AlvrQuat) : AlvrQuat := q

/-- The fallback pose assembled at the `out:` label when
`returnLastPosition` is set: both components come from the caches. -/
def lastKnownPose (ctx : PoseCtx) : AlvrPose :=
  ⟨ctx.lastOrientation, ctx.lastPosition⟩

/-- `getPose(timestampNs)`.  Returns the computed pose together with the
updated context (cache writes), or an error when the source throws
(`"Failed to get EGL context in getPose."`).

Mirrors the source exactly:
1. unless `arcoreEnabled && useARCoreOrientation`, read the head tracker,
   invert the quaternion, store it in `lastOrientation`;
2. if ARCore is enabled and a session exists: require an EGL context
   (throw otherwise); a failed `ArSession_update` or a non-tracking camera
   sets `returnLastPosition` and jumps to `out:`; on success copy the
   camera position into the pose and into `lastPosition`, optionally take
   the camera orientation, and optionally overwrite the pose's y with the
   barometric altitude;
3. at `out:`, if `returnLastPosition`, both pose components are re-read
   from the caches. -/
noncomputable def getPose (ctx : PoseCtx) (headQ : AlvrQuat) (ar : ArReadings) :
    Except String (AlvrPose × PoseCtx) :=
  let step1 : AlvrPose × PoseCtx :=
    if !ctx.arcoreEnabled || (ctx.arcoreEnabled && !ctx.useARCoreOrientation) then
      let orientation := inverseQuat (headTrackerQuat headQ)
      (⟨orientation, zeroVec⟩, { ctx with lastOrientation := orientation })
    else
      (zeroPose, ctx)
  let pose1 := step1.1
  let ctx1 := step1.2
  if ctx.arcoreEnabled && ctx.arSessionPresent then
    if !ctx.eglContextPresent then
      Except.error "Failed to get EGL context in getPose."
    else if !ar.updateSuccess then
      Except.ok (lastKnownPose ctx1, ctx1)
    else if !ar.trackingOk then
      Except.ok (lastKnownPose ctx1, ctx1)
    else
      let pose2 : AlvrPose := ⟨pose1.orientation, ar.camPosition⟩
      let ctx2 := { ctx1 with lastPosition := ar.camPosition }
      let step3 : AlvrPose × PoseCtx :=
        if ctx.useARCoreOrientation then
          (⟨ar.camOrientation, pose2.position⟩,
           { ctx2 with lastOrientation := ar.camOrientation })
        else
          (pose2, ctx2)
      let pose3 := step3.1
      let ctx3 := step3.2
      let pose4 : AlvrPose :=
        if ctx.useBarometerAltitudeTracking then
          ⟨pose3.orientation,
           ⟨pose3.position.x, getAltitudeFromBarometer ctx, pose3.position.z⟩⟩
        else
          pose3
      Except.ok (pose4, ctx3)
  else
    Except.ok (pose1, ctx1)

/-! ## View configuration -/

/-- `AlvrFov`: four half-angles per eye. -/
structure AlvrFov where
  left : ℝ
  right : ℝ
  up : ℝ
  down : ℝ


attribute [ext] AlvrFov

/-- A zero-initialized `AlvrFov`. -/
def zeroFov : AlvrFov := ⟨0, 0, 0, 0⟩

/-- `AlvrViewParams`: pose plus field of view for one eye. -/
structure AlvrViewParams where
  pose : AlvrPose
  fov : AlvrFov


/-- The per-eye view-parameter computation of `updateViewConfigs`, taking the
head pose returned by `getPose` as input.  For each eye the source first
assigns `CTX.viewParams[eye].pose = headPose` and then applies
`offsetPosWithQuat` in place to its position, with
`headToEye = {CTX.eyeOffsets[eye], 0.0, 0.0}`. -/
def updateViewConfigsFromPose (headPose : AlvrPose) (eyeOffsets : ℝ × ℝ)
    (fovArr : AlvrFov × AlvrFov) : AlvrViewParams × AlvrViewParams :=
  let headToEyeL : Vec3 := ⟨eyeOffsets.1, 0, 0⟩
  let leftParams : AlvrViewParams :=
    { pose := ⟨headPose.orientation,
               offsetPosWithQuat headPose.orientation headToEyeL headPose.position⟩,
      fov := fovArr.1 }
  let headToEyeR : Vec3 := ⟨eyeOffsets.2, 0, 0⟩
  let rightParams : AlvrViewParams :=
    { pose := ⟨headPose.orientation,
               offsetPosWithQuat headPose.orientation headToEyeR headPose.position⟩,
      fov := fovArr.2 }
  (leftParams, rightParams)

/-- `AlvrViewInput` as used by the lobby path of `renderNative`:
`AlvrViewInput viewInputs[2] = {}` zero-initializes pose, fov and
swapchain index. -/
structure ViewInput where
  pose : AlvrPose
  fov : AlvrFov
  swapchainIndex : ℕ


/-- The per-eye view input built by the lobby branch of `renderNative`,
statement by statement.  The source first writes the offset position into
the zero-initialized `viewInputs[eye].pose.position` via
`offsetPosWithQuat`, and only afterwards assigns `viewInputs[eye].pose =
pose`, which overwrites the whole pose — including the position just
computed. -/
def lobbyViewInput (pose : AlvrPose) (eyeOffset : ℝ) (fov : AlvrFov) : ViewInput :=
  let vi0 : ViewInput := { pose := zeroPose, fov := zeroFov, swapchainIndex := 0 }
  let headToEye : Vec3 := ⟨eyeOffset, 0, 0⟩
  let vi1 : ViewInput :=
    { vi0 with pose := ⟨vi0.pose.orientation,
                        offsetPosWithQuat pose.orientation headToEye vi0.pose.position⟩ }
  let vi2 : ViewInput := { vi1 with pose := pose }
  let vi3 : ViewInput := { vi2 with fov := fov, swapchainIndex := 0 }
  vi3

/-! ## Specification-side quaternion rotation

The spec's `rotate(headOrientation, offset)` is genuine rotation by a unit
quaternion.  `specRotate` below is defined from the spec's words (quaternion
sandwich product `q * v * q⁻¹`, with `q⁻¹` the conjugate of the unit
quaternion), to be compared with the source's `quatVecMultiply`. -/

/-- Hamilton product of two quaternions. -/
def quatMul (a b : AlvrQuat) : AlvrQuat :=
  ⟨a.w * b.x + a.x * b.w + a.y * b.z - a.z * b.y,
   a.w * b.y - a.x * b.z + a.y * b.w + a.z * b.x,
   a.w * b.z + a.x * b.y - a.y * b.x + a.z * b.w,
   a.w * b.w - a.x * b.x - a.y * b.y - a.z * b.z⟩

/-- Quaternion conjugate (the inverse of a unit quaternion). -/
def quatConj (q : AlvrQuat) : AlvrQuat := ⟨-q.x, -q.y, -q.z, q.w⟩

/-- Modelled from the spec: rotation of a vector by a unit quaternion via
the sandwich product `q * (0, v) * q⁻¹`. -/
def specRotate (q : AlvrQuat) (v : Vec3) : Vec3 :=
  let p := quatMul (quatMul q ⟨v.x, v.y, v.z, 0⟩) (quatConj q)
  ⟨p.x, p.y, p.z⟩

/-- A quaternion is a unit quaternion. -/
def IsUnitQuat (q : AlvrQuat) : Prop :=
  q.x ^ 2 + q.y ^ 2 + q.z ^ 2 + q.w ^ 2 = 1

/-! ## TrackingDispatcher timing (`inputThread`)

The loop initializes `deadline = std::chrono::steady_clock::now()` once, and
each iteration executes `deadline += (uint64_t)(1e9 / 60.f / 3)` followed by
`sleep_until(deadline)`; the current time is never re-measured. -/

/-- The per-iteration deadline increment `(uint64_t)(1e9 / 60.f / 3)` in
nanoseconds: the double arithmetic truncated to an integer. -/
def trackingIntervalNs : ℤ := Int.floor ((10 ^ 9 : ℚ) / 60 / 3)

/-- The deadline after `n` iterations of the `inputThread` loop, starting
from the initial deadline `d0`: each iteration adds `trackingIntervalNs`. -/
def inputThreadDeadline (d0 : ℤ) : ℕ → ℤ
  | 0 => d0
  | n + 1 => inputThreadDeadline d0 n + trackingIntervalNs

/-- Modelled from the spec's words for claim comparison: an interval equal
to one third of the nominal display refresh period at `refreshRate` Hz, in
nanoseconds. -/
def claimedIntervalNs (refreshRate : ℚ) : ℚ := 10 ^ 9 / (3 * refreshRate)

/-! ## JSON settings model

A structured model of the parsed `nlohmann::json` settings value that the
`STREAMING_STARTED` handler probes for foveation parameters.  Field access
`j["k"]` on an object returns the field (or null when absent, matching the
non-const `operator[]`, which inserts and returns null); on null it likewise
yields null; on any other kind it throws a type error.  Conversion to a
number throws unless the value is a number. -/

/-- A `nlohmann::json` exception escaping the settings probing. -/
inductive JsonErr where
  | typeError
deriving DecidableEq, Repr

/-- A parsed JSON value (numbers idealized as exact rationals). -/
inductive JValue where
  | null : JValue
  | boolean (b : Bool) : JValue
  | num (q : ℚ) : JValue
  | str (s : String) : JValue
  | obj (fields : List (String × JValue)) : JValue
deriving Inhabited

/-- Whether the value is JSON null (`is_null()`). -/
def JValue.isNull : JValue → Bool
  | .null => true
  | _ => false

/-- Whether the value is a JSON string (`is_string()`). -/
def JValue.isString : JValue → Bool
  | .str _ => true
  | _ => false

/-- Field access `j["k"]`: on an object, the field value or null when the
key is absent; on null, null (non-const `operator[]` turns null into an
object); on any other kind, a type error (as thrown by `nlohmann::json`). -/
def JValue.getField : JValue → String → Except JsonErr JValue
  | .obj fields, k =>
      match fields.find? (fun p => p.1 == k) with
      | some p => Except.ok p.2
      | none => Except.ok JValue.null
  | .null, _ => Except.ok JValue.null
  | _, _ => Except.error JsonErr.typeError

/-- Conversion of a JSON value to a number (assignment to a `float` field):
throws a type error unless the value is a number. -/
def JValue.asNum : JValue → Except JsonErr ℚ
  | .num q => Except.ok q
  | _ => Except.error JsonErr.typeError

/-- `j["k"]` followed by conversion to a number. -/
def readNum (j : JValue) (k : String) : Except JsonErr ℚ :=
  match j.getField k with
  | Except.error e => Except.error e
  | Except.ok v => v.asNum

/-! ## Session state machine (`renderNative` and the lifecycle entry points) -/

/-- The `AlvrStreamConfig` fields the handler fills in (swapchain plumbing
elided; numbers as exact rationals). -/
structure StreamRenderConfig where
  viewWidth : ℕ
  viewHeight : ℕ
  enableFoveation : Bool
  centerSizeX : ℚ
  centerSizeY : ℚ
  centerShiftX : ℚ
  centerShiftY : ℚ
  edgeRatioX : ℚ
  edgeRatioY : ℚ
deriving DecidableEq, Repr

/-- The zero-initialized `AlvrStreamConfig` with the view resolution from
the event and `enable_foveation = false` (its value before the JSON
probing). -/
def initRenderConfig (w h : ℕ) : StreamRenderConfig :=
  { viewWidth := w, viewHeight := h, enableFoveation := false,
    centerSizeX := 0, centerSizeY := 0, centerShiftX := 0, centerShiftY := 0,
    edgeRatioX := 0, edgeRatioY := 0 }

/-- Externally observable actions performed by one `renderNative` call, in
program order. -/
inductive RAction where
  | recomputeRenderingParams
  | deleteLobbyTextures
  | allocLobbyTextures (w h : ℕ)
  | allocStreamTextures (w h : ℕ)
  | startStreamOpenGL (rc : StreamRenderConfig)
  | startInputThread
  | setStreamingFlag (b : Bool)
  | joinInputThread
  | deleteStreamTextures
  | logInfo (msg : String)
  | logError (msg : String)
  | renderStream
  | renderLobby
deriving DecidableEq, Repr

/-- The fields of `CTX` the session state machine reads and writes. -/
structure SessionCtx where
  screenWidth : ℕ
  screenHeight : ℕ
  screenRotation : ℕ
  refreshRate : ℚ
  renderingParamsChanged : Bool
  glContextRecreated : Bool
  savedDeviceParamsSize : ℕ
  streaming : Bool
deriving DecidableEq, Repr

/-- The context right after `initializeNative(screenWidth, screenHeight,
refreshRate, enableARCore)`: the refresh rate is recorded in the
capabilities handed to `alvr_initialize`; `renderingParamsChanged` starts
`true` and `streaming` `false` (field initializers of `NativeContext`). -/
def initializeNative (screenWidth screenHeight : ℕ) (refreshRate : ℚ) : SessionCtx :=
  { screenWidth := screenWidth, screenHeight := screenHeight, screenRotation := 0,
    refreshRate := refreshRate, renderingParamsChanged := true,
    glContextRecreated := false, savedDeviceParamsSize := 0, streaming := false }

/-- `setScreenResolutionNative(width, height)`: stores the new geometry and
sets the `renderingParamsChanged` dirty flag. -/
def setScreenResolutionNative (s : SessionCtx) (width height : ℕ) : SessionCtx :=
  { s with screenWidth := width, screenHeight := height, renderingParamsChanged := true }

/-- `setScreenRotationNative(rotation)`: stores the rotation and sets the
dirty flag. -/
def setScreenRotationNative (s : SessionCtx) (rotation : ℕ) : SessionCtx :=
  { s with screenRotation := rotation, renderingParamsChanged := true }

/-- `surfaceCreatedNative()`: marks the GL context as recreated. -/
def surfaceCreatedNative (s : SessionCtx) : SessionCtx :=
  { s with glContextRecreated := true }

/-- Events delivered by `alvr_poll_event` during one render tick.  For
`STREAMING_STARTED` the event carries the target view resolution, and the
settings JSON fetched by `alvr_get_settings_json` during the handling is
attached as the environment's response. -/
inductive AlvrEvent where
  | hudMessageUpdated
  | streamingStarted (viewWidth viewHeight : ℕ) (settings : JValue)
  | streamingStopped

/-- The foveation probing of the `STREAMING_STARTED` handler, mirroring the
nested `is_null` / `is_string` checks and the six field reads of the
`Enabled` object.  Any thrown `nlohmann::json` error propagates. -/
def parseFoveation (settings : JValue) (rc : StreamRenderConfig) :
    Except JsonErr (StreamRenderConfig × List RAction) :=
  match settings.getField "video" with
  | Except.error e => Except.error e
  | Except.ok video =>
    if video.isNull then
      Except.ok (rc, [RAction.logError "settings_json does not have a video key"])
    else
      match video.getField "foveated_encoding" with
      | Except.error e => Except.error e
      | Except.ok fe =>
        if fe.isNull then
          Except.ok (rc,
            [RAction.logError "settings_json does not have a video.foveated_encoding key"])
        else if fe.isString then
          Except.ok (rc, [RAction.logInfo "foveated_encoding is Disabled"])
        else
          match fe.getField "Enabled" with
          | Except.error e => Except.error e
          | Except.ok en =>
            match readNum en "center_size_x", readNum en "center_size_y",
                  readNum en "center_shift_x", readNum en "center_shift_y",
                  readNum en "edge_ratio_x", readNum en "edge_ratio_y" with
            | Except.ok csx, Except.ok csy, Except.ok cshx,
              Except.ok cshy, Except.ok erx, Except.ok ery =>
                Except.ok ({ rc with
                             enableFoveation := true,
                             centerSizeX := csx, centerSizeY := csy,
                             centerShiftX := cshx, centerShiftY := cshy,
                             edgeRatioX := erx, edgeRatioY := ery }, [])
            | _, _, _, _, _, _ => Except.error JsonErr.typeError

/-- Handling of one polled event.  The third component is `true` when a
`nlohmann::json` exception escaped (aborting the rest of the render tick).
For `STREAMING_STARTED` the stream textures are generated (at the event's
resolution) before the foveation probing; `CTX.streaming = true` and the
input-thread start happen only after `alvr_start_stream_opengl`.  For
`STREAMING_STOPPED` the source clears `CTX.streaming`, joins the input
thread, and only then deletes the stream textures. -/
def processEvent (s : SessionCtx) (e : AlvrEvent) : SessionCtx × List RAction × Bool :=
  match e with
  | AlvrEvent.hudMessageUpdated => (s, [RAction.logInfo "HUD Message Update"], false)
  | AlvrEvent.streamingStarted w h settings =>
      match parseFoveation settings (initRenderConfig w h) with
      | Except.ok (rc, parseTrace) =>
          ({ s with streaming := true },
           RAction.allocStreamTextures w h ::
             (parseTrace ++ [RAction.startStreamOpenGL rc, RAction.startInputThread,
                             RAction.setStreamingFlag true]),
           false)
      | Except.error _ =>
          (s, [RAction.allocStreamTextures w h], true)
  | AlvrEvent.streamingStopped =>
      ({ s with streaming := false },
       [RAction.setStreamingFlag false, RAction.joinInputThread,
        RAction.deleteStreamTextures],
       false)

/-- The `while (alvr_poll_event(&event))` loop: events are handled in
order; a thrown exception aborts the loop (and the rest of the tick). -/
def processEvents (s : SessionCtx) : List AlvrEvent → SessionCtx × List RAction × Bool
  | [] => (s, [], false)
  | e :: es =>
      let (s1, tr1, aborted) := processEvent s e
      if aborted then (s1, tr1, true)
      else
        let (s2, tr2, aborted2) := processEvents s1 es
        (s2, tr1 ++ tr2, aborted2)

/-- One `renderNative` call, as a function of the current session context
and the events returned by `alvr_poll_event` this tick.  In order:

1. if `renderingParamsChanged` and there are no saved device params, the
   call returns immediately (geometry work deferred);
2. if `renderingParamsChanged`, lens distortion, eye offsets and FOVs are
   recomputed;
3. if `renderingParamsChanged && !glContextRecreated`, the old lobby
   textures are deleted;
4. if `renderingParamsChanged || glContextRecreated`, the lobby textures
   are (re)allocated at `screenWidth / 2 × screenHeight` and both dirty
   flags are cleared;
5. the polled events are handled (a JSON exception lands in the `catch`
   block, which logs it and ends the call);
6. the tick renders the stream or the lobby according to `streaming`. -/
def renderNative (s : SessionCtx) (events : List AlvrEvent) : SessionCtx × List RAction :=
  if s.renderingParamsChanged && s.savedDeviceParamsSize == 0 then (s, [])
  else
    let tr1 : List RAction :=
      if s.renderingParamsChanged then [RAction.recomputeRenderingParams] else []
    let tr2 : List RAction :=
      if s.renderingParamsChanged && !s.glContextRecreated then
        tr1 ++ [RAction.deleteLobbyTextures]
      else tr1
    let step3 : SessionCtx × List RAction :=
      if s.renderingParamsChanged || s.glContextRecreated then
        ({ s with renderingParamsChanged := false, glContextRecreated := false },
         tr2 ++ [RAction.allocLobbyTextures (s.screenWidth / 2) s.screenHeight])
      else (s, tr2)
    let s3 := step3.1
    let tr3 := step3.2
    let (s4, tr4, aborted) := processEvents s3 events
    if aborted then (s4, tr3 ++ tr4 ++ [RAction.logError "json exception"])
    else
      let tr5 : List RAction :=
        if s4.streaming then [RAction.renderStream] else [RAction.renderLobby]
      (s4, tr3 ++ tr4 ++ tr5)

/-- The benign foveation-settings shapes: the `video` key absent (null), the
`foveated_encoding` key absent (null), or `foveated_encoding` a string
(the explicit "Disabled" form).  These are exactly the shapes the handler
absorbs without throwing, leaving foveation off. -/
def foveationAbsentOrDisabled (settings : JValue) : Bool :=
  match settings.getField "video" with
  | Except.error _ => false
  | Except.ok video =>
    video.isNull ||
      (match video.getField "foveated_encoding" with
       | Except.error _ => false
       | Except.ok fe => fe.isNull || fe.isString)

/-! ## Claim C6: TrackingDispatcher deadline spacing -/

/-- C6 counterexample: the claim says the dispatch interval equals one third
of the nominal display refresh period for the refresh rate supplied at
initialization.  With refresh rate 90 supplied to `initializeNative`, the
loop's actual deadline increment (`(uint64_t)(1e9 / 60.f / 3)`, a hard-coded
60 Hz) is not one third of a 90 Hz period. -/
theorem C6_counterexample :
    ((inputThreadDeadline 0 1 - inputThreadDeadline 0 0 : ℤ) : ℚ)
      ≠ claimedIntervalNs (initializeNative 1920 1080 90).refreshRate := by
  norm_num [inputThreadDeadline, trackingIntervalNs, claimedIntervalNs, initializeNative]

/-- C6 (amended): successive dispatch deadlines are computed by accumulation
from the initial deadline and are exactly interval-spaced, with no
cumulative drift: `deadline_n = deadline_0 + n * interval`.  The interval is
`(uint64_t)(1e9 / 60.f / 3) = 5555555` nanoseconds — one third of a
hard-coded 60 Hz display refresh period, independent of the refresh rate
supplied at initialization. -/
theorem C6_deadlines_accumulate (d0 : ℤ) (n : ℕ) :
    inputThreadDeadline d0 n = d0 + n * trackingIntervalNs
      ∧ trackingIntervalNs = 5555555 := by
  have hval : trackingIntervalNs = 5555555 := by
    norm_num [trackingIntervalNs]
  refine ⟨?_, hval⟩
  induction n with
  | zero => simp [inputThreadDeadline]
  | succ k ih =>
      rw [inputThreadDeadline, ih]
      push_cast
      ring

/-! ## Claim C7: StreamingStopped joins the dispatcher before releasing
stream textures -/

/-- Matches the three actions of the `STREAMING_STOPPED` handler. -/
def isStopAction (a : RAction) : Bool :=
  match a with
  | RAction.setStreamingFlag false => true
  | RAction.joinInputThread => true
  | RAction.deleteStreamTextures => true
  | _ => false

/-- C7: on a `StreamingStopped` event received while streaming, the render
tick first clears the streaming flag (signalling the dispatcher loop to
stop), then joins the input thread, and only afterwards deletes the stream
textures; the resulting state is back in Lobby (streaming false, and the
same tick renders the lobby). -/
theorem C7_stop_joins_before_release (s : SessionCtx)
    (_hstreaming : s.streaming = true) (hrp : s.renderingParamsChanged = false) :
    (renderNative s [AlvrEvent.streamingStopped]).1.streaming = false ∧
    ((renderNative s [AlvrEvent.streamingStopped]).2.filter isStopAction)
      = [RAction.setStreamingFlag false, RAction.joinInputThread,
         RAction.deleteStreamTextures] ∧
    RAction.renderLobby ∈ (renderNative s [AlvrEvent.streamingStopped]).2 := by
  cases hgl : s.glContextRecreated <;>
    simp [renderNative, processEvents, processEvent, hrp, hgl, isStopAction,
      List.filter]

/-- A concrete streaming-state context for exercising C7. -/
def c7Ctx : SessionCtx :=
  { screenWidth := 1920, screenHeight := 1080, screenRotation := 0,
    refreshRate := 60, renderingParamsChanged := false,
    glContextRecreated := false, savedDeviceParamsSize := 100, streaming := true }

/-- C7 witness: the theorem applied at the concrete streaming context. -/
theorem C7_witness :
    (renderNative c7Ctx [AlvrEvent.streamingStopped]).1.streaming = false ∧
    ((renderNative c7Ctx [AlvrEvent.streamingStopped]).2.filter isStopAction)
      = [RAction.setStreamingFlag false, RAction.joinInputThread,
         RAction.deleteStreamTextures] ∧
    RAction.renderLobby ∈ (renderNative c7Ctx [AlvrEvent.streamingStopped]).2 :=
  C7_stop_joins_before_release c7Ctx (by decide) (by decide)

/-! ## Claim C9: geometry-changed trigger is idempotent -/

/-- Matches a lobby texture (re)allocation. -/
def isLobbyAlloc (a : RAction) : Bool :=
  match a with
  | RAction.allocLobbyTextures _ _ => true
  | _ => false

/-- C9: triggering the geometry-changed event (`setScreenResolutionNative`)
twice with unchanged parameters before any render tick consumes the dirty
flag leaves the very same state as triggering it once (the trigger only
sets a boolean dirty flag), and the next render tick performs exactly one
lobby texture reallocation (given saved device calibration is present, so
the geometry work is not deferred). -/
theorem C9_geometry_trigger_idempotent (s : SessionCtx) (w h : ℕ)
    (hcal : s.savedDeviceParamsSize ≠ 0) :
    setScreenResolutionNative (setScreenResolutionNative s w h) w h
        = setScreenResolutionNative s w h ∧
    ((renderNative (setScreenResolutionNative (setScreenResolutionNative s w h) w h)
        []).2.countP isLobbyAlloc) = 1 := by
  refine ⟨rfl, ?_⟩
  have hbeq : (s.savedDeviceParamsSize == 0) = false := by
    simpa using hcal
  cases hgl : s.glContextRecreated <;> cases hst : s.streaming <;>
    simp [renderNative, setScreenResolutionNative, processEvents, hbeq, hgl, hst,
      isLobbyAlloc, List.countP_cons, List.countP_nil]

/-- A concrete calibrated context for exercising C9. -/
def c9Ctx : SessionCtx :=
  { screenWidth := 640, screenHeight := 480, screenRotation := 0,
    refreshRate := 60, renderingParamsChanged := false,
    glContextRecreated := false, savedDeviceParamsSize := 100, streaming := false }

/-- C9 witness: the theorem applied at a concrete calibrated context. -/
theorem C9_witness :
    c9Ctx.savedDeviceParamsSize ≠ 0 ∧
    setScreenResolutionNative (setScreenResolutionNative c9Ctx 1920 1080) 1920 1080
        = setScreenResolutionNative c9Ctx 1920 1080 ∧
    ((renderNative (setScreenResolutionNative (setScreenResolutionNative c9Ctx 1920 1080)
        1920 1080) []).2.countP isLobbyAlloc) = 1 :=
  ⟨by decide,
   (C9_geometry_trigger_idempotent c9Ctx 1920 1080 (by decide)).1,
   (C9_geometry_trigger_idempotent c9Ctx 1920 1080 (by decide)).2⟩

/-! ## Claim C8: StreamingStarted and foveation-parse failures -/

/-- Whether an `Except` value is a success. -/
def exceptOk {ε α : Type} (r : Except ε α) : Bool :=
  match r with
  | Except.ok _ => true
  | Except.error _ => false

/-- On the benign settings shapes (video key absent, foveated_encoding key
absent, or foveated_encoding an explicit string), the foveation probing
succeeds, leaves the render config unchanged (foveation stays off), and
logs the condition. -/
theorem parseFoveation_benign (settings : JValue) (rc : StreamRenderConfig)
    (h : foveationAbsentOrDisabled settings = true) :
    ∃ m, parseFoveation settings rc = Except.ok (rc, [RAction.logError m])
      ∨ parseFoveation settings rc = Except.ok (rc, [RAction.logInfo m]) := by
  unfold foveationAbsentOrDisabled at h
  unfold parseFoveation
  rcases hv : settings.getField "video" with e | video
  · rw [hv] at h; simp at h
  · rw [hv] at h
    by_cases hnull : video.isNull
    · exact ⟨"settings_json does not have a video key", Or.inl (by simp [hnull])⟩
    · simp only [hnull, Bool.false_or] at h
      rcases hf : video.getField "foveated_encoding" with e | fe
      · rw [hf] at h; simp at h
      · rw [hf] at h
        by_cases hfnull : fe.isNull
        · exact ⟨"settings_json does not have a video.foveated_encoding key",
            Or.inl (by simp [hnull, hf, hfnull])⟩
        · simp only [hfnull, Bool.false_or] at h
          exact ⟨"foveated_encoding is Disabled",
            Or.inr (by simp [hnull, hf, hfnull, h])⟩

/-- C8 (amended): on a `StreamingStarted` event (dirty flags clear so the
handler is reached), the stream texture set is allocated at the event's
resolution in every case.  When the foveation settings are absent or
explicitly disabled, the parse is non-fatal and logged, foveation is off in
the stream config handed to `alvr_start_stream_opengl`, the input thread is
started and the state transitions to Streaming.  But when probing the
`Enabled` foveation object throws (missing or non-numeric field), the
exception aborts the remainder of the handler: the failure is only logged
by the top-level catch, the input thread is never started, and the state
does not transition to Streaming (the textures stay allocated). -/
theorem C8_stream_start (s : SessionCtx) (w h : ℕ) (settings : JValue)
    (hrp : s.renderingParamsChanged = false) (hgl : s.glContextRecreated = false) :
    RAction.allocStreamTextures w h
        ∈ (renderNative s [AlvrEvent.streamingStarted w h settings]).2 ∧
    (foveationAbsentOrDisabled settings = true →
      (renderNative s [AlvrEvent.streamingStarted w h settings]).1.streaming = true ∧
      RAction.startInputThread
          ∈ (renderNative s [AlvrEvent.streamingStarted w h settings]).2 ∧
      (∀ rc, RAction.startStreamOpenGL rc
          ∈ (renderNative s [AlvrEvent.streamingStarted w h settings]).2 →
          rc.enableFoveation = false) ∧
      (∃ m, RAction.logError m
            ∈ (renderNative s [AlvrEvent.streamingStarted w h settings]).2
          ∨ RAction.logInfo m
            ∈ (renderNative s [AlvrEvent.streamingStarted w h settings]).2)) ∧
    (exceptOk (parseFoveation settings (initRenderConfig w h)) = false →
      (renderNative s [AlvrEvent.streamingStarted w h settings]).1.streaming
          = s.streaming ∧
      RAction.startInputThread
          ∉ (renderNative s [AlvrEvent.streamingStarted w h settings]).2 ∧
      RAction.logError "json exception"
          ∈ (renderNative s [AlvrEvent.streamingStarted w h settings]).2) := by
  rcases hp : parseFoveation settings (initRenderConfig w h) with e | ⟨rc, ptr⟩
  · refine ⟨?_, ?_, ?_⟩
    · simp [renderNative, processEvents, processEvent, hrp, hgl, hp]
    · intro hben
      rcases parseFoveation_benign settings (initRenderConfig w h) hben with ⟨m, hm | hm⟩ <;>
        rw [hp] at hm <;> exact absurd hm (by simp)
    · intro _
      simp [renderNative, processEvents, processEvent, hrp, hgl, hp]
  · refine ⟨?_, ?_, ?_⟩
    · simp [renderNative, processEvents, processEvent, hrp, hgl, hp]
    · intro hben
      rcases parseFoveation_benign settings (initRenderConfig w h) hben with ⟨m, hm | hm⟩ <;>
        rw [hp] at hm <;>
        obtain ⟨hrc, hptr⟩ : rc = initRenderConfig w h ∧ _ := by
          constructor
          · have := (by simpa using hm : rc = initRenderConfig w h ∧ _).1
            exact this
          · exact (by simpa using hm : _ ∧ _).2
      · refine ⟨?_, ?_, ?_, ?_⟩
        · simp [renderNative, processEvents, processEvent, hrp, hgl, hp]
        · simp [renderNative, processEvents, processEvent, hrp, hgl, hp]
        · intro rc2 hmem
          rw [hrc] at hp
          simp [renderNative, processEvents, processEvent, hrp, hgl, hp, hptr] at hmem
          rw [hmem]
          rfl
        · exact ⟨m, Or.inl (by simp [renderNative, processEvents, processEvent,
            hrp, hgl, hp, hptr])⟩
      · refine ⟨?_, ?_, ?_, ?_⟩
        · simp [renderNative, processEvents, processEvent, hrp, hgl, hp]
        · simp [renderNative, processEvents, processEvent, hrp, hgl, hp]
        · intro rc2 hmem
          rw [hrc] at hp
          simp [renderNative, processEvents, processEvent, hrp, hgl, hp, hptr] at hmem
          rw [hmem]
          rfl
        · exact ⟨m, Or.inr (by simp [renderNative, processEvents, processEvent,
            hrp, hgl, hp, hptr])⟩
    · intro hko
      exact absurd hko (by simp [exceptOk])

/-- A concrete non-streaming context (dirty flags clear) for exercising C8. -/
def c8Ctx : SessionCtx :=
  { screenWidth := 1920, screenHeight := 1080, screenRotation := 0,
    refreshRate := 60, renderingParamsChanged := false,
    glContextRecreated := false, savedDeviceParamsSize := 100, streaming := false }

/-- Settings whose `video.foveated_encoding.Enabled` object is present but
malformed (missing all numeric fields): probing it throws. -/
def c8BadSettings : JValue :=
  JValue.obj [("video", JValue.obj [("foveated_encoding",
    JValue.obj [("Enabled", JValue.obj [])])])]

/-- Settings without a `video` key: the benign absent case. -/
def c8AbsentSettings : JValue := JValue.obj [("audio", JValue.null)]

/-- C8 counterexample: a `StreamingStarted{256×256}` event whose foveation
settings carry a malformed `Enabled` object.  The claim says any failure to
parse optional foveation fields is non-fatal and the stream start still
completes; in fact the thrown JSON exception aborts the handler — the
input thread is never started and the state does not transition to
Streaming (while the stream textures were already allocated). -/
theorem C8_counterexample :
    (renderNative c8Ctx [AlvrEvent.streamingStarted 256 256 c8BadSettings]).1.streaming
        = false ∧
    RAction.startInputThread
        ∉ (renderNative c8Ctx [AlvrEvent.streamingStarted 256 256 c8BadSettings]).2 ∧
    RAction.allocStreamTextures 256 256
        ∈ (renderNative c8Ctx [AlvrEvent.streamingStarted 256 256 c8BadSettings]).2 ∧
    RAction.logError "json exception"
        ∈ (renderNative c8Ctx [AlvrEvent.streamingStarted 256 256 c8BadSettings]).2 := by
  decide

/-- C8 witness: applying the amended theorem at the concrete context and the
benign absent-`video` settings: the stream start completes with foveation
off. -/
theorem C8_witness :
    (renderNative c8Ctx [AlvrEvent.streamingStarted 256 256 c8AbsentSettings]).1.streaming
        = true ∧
    RAction.allocStreamTextures 256 256
        ∈ (renderNative c8Ctx [AlvrEvent.streamingStarted 256 256 c8AbsentSettings]).2 ∧
    RAction.startInputThread
        ∈ (renderNative c8Ctx [AlvrEvent.streamingStarted 256 256 c8AbsentSettings]).2 := by
  have h := C8_stream_start c8Ctx 256 256 c8AbsentSettings rfl rfl
  have hben := h.2.1 (by decide)
  exact ⟨hben.1, h.1, hben.2.1⟩

/-! ## Claim C1: getPose totality -/

/-- A context with camera tracking enabled, an active session, and no
current EGL context. -/
def c1Ctx : PoseCtx :=
  { arcoreEnabled := true, arSessionPresent := true, eglContextPresent := false,
    useARCoreOrientation := false, useBarometerAltitudeTracking := true,
    lastOrientation := zeroQuat, lastPosition := zeroVec,
    floorAltitude := 0, currentPressure := 0 }

/-- C1 counterexample: the claim says `getPose` terminates normally with a
pose under every configuration, graphics context present or absent.  With
camera tracking enabled, an active session and no current EGL context, the
call instead throws a runtime error. -/
theorem C1_counterexample :
    getPose c1Ctx ⟨0, 0, 0, 1⟩ ⟨true, true, zeroQuat, zeroVec⟩
      = Except.error "Failed to get EGL context in getPose." := by
  simp [getPose, c1Ctx]

/-- C1 (amended): `getPose` terminates normally with a pose value in every
configuration except exactly one: camera tracking enabled with an active
session while no graphics context is current, in which case it throws a
runtime error (the fatal precondition of the position source). -/
theorem C1_getPose_totality (ctx : PoseCtx) (headQ : AlvrQuat) (ar : ArReadings) :
    exceptOk (getPose ctx headQ ar)
      = !(ctx.arcoreEnabled && ctx.arSessionPresent && !ctx.eglContextPresent) := by
  cases h1 : ctx.arcoreEnabled <;> cases h2 : ctx.arSessionPresent <;>
    cases h3 : ctx.eglContextPresent <;> cases h5 : ar.updateSuccess <;>
    cases h6 : ar.trackingOk <;>
    simp [getPose, exceptOk, h1, h2, h3, h5, h6]

/-! ## Claim C2: behaviour on camera-tracking failure -/

/-- C2 (amended): on a camera-tracking failure (failed frame advance or
non-tracking confidence) with a live context, `getPose` succeeds and returns
the cached last-known position, leaving the position cache untouched.  When
camera orientation is configured (`useARCoreOrientation`), the whole
last-known pose is returned and the entire cached state is untouched.  But
in the default head-tracker-orientation configuration, the orientation
returned is this very call's fresh head-tracker reading — which has already
overwritten the orientation cache before the failure is detected — so the
output combines a fresh orientation with the stale cached position, and the
failed read does mutate cached state. -/
theorem C2_failure_fallback (ctx : PoseCtx) (headQ : AlvrQuat) (ar : ArReadings)
    (h1 : ctx.arcoreEnabled = true) (h2 : ctx.arSessionPresent = true)
    (h3 : ctx.eglContextPresent = true)
    (hfail : ar.updateSuccess = false ∨ ar.trackingOk = false) :
    ∃ pose ctx2, getPose ctx headQ ar = Except.ok (pose, ctx2) ∧
      pose.position = ctx.lastPosition ∧
      ctx2.lastPosition = ctx.lastPosition ∧
      (ctx.useARCoreOrientation = true →
        pose.orientation = ctx.lastOrientation ∧ ctx2 = ctx) ∧
      (ctx.useARCoreOrientation = false →
        pose.orientation = inverseQuat headQ ∧
        ctx2.lastOrientation = inverseQuat headQ) := by
  have hcase : ar.updateSuccess = false
      ∨ (ar.updateSuccess = true ∧ ar.trackingOk = false) := by
    rcases hfail with hf | hf
    · exact Or.inl hf
    · cases h5 : ar.updateSuccess
      · exact Or.inl rfl
      · exact Or.inr ⟨rfl, hf⟩
  cases h4 : ctx.useARCoreOrientation
  · refine ⟨lastKnownPose { ctx with lastOrientation := inverseQuat (headTrackerQuat headQ) },
      { ctx with lastOrientation := inverseQuat (headTrackerQuat headQ) }, ?_, ?_, ?_, ?_, ?_⟩
    · rcases hcase with h5 | ⟨h5, h6⟩ <;>
        simp [getPose, h1, h2, h3, h4, h5]
      simp [h6]
    · simp [lastKnownPose]
    · simp
    · intro hc; simp at hc
    · intro _; exact ⟨rfl, rfl⟩
  · refine ⟨lastKnownPose ctx, ctx, ?_, ?_, ?_, ?_, ?_⟩
    · rcases hcase with h5 | ⟨h5, h6⟩ <;>
        simp [getPose, h1, h2, h3, h4, h5]
      simp [h6]
    · simp [lastKnownPose]
    · simp
    · intro _; exact ⟨rfl, rfl⟩
    · intro hc; simp at hc

/-- A live-context state with a distinguishable orientation cache for
exercising C2: the cached orientation is the identity, while the head
tracker reads a different quaternion. -/
def c2Ctx : PoseCtx :=
  { arcoreEnabled := true, arSessionPresent := true, eglContextPresent := true,
    useARCoreOrientation := false, useBarometerAltitudeTracking := true,
    lastOrientation := ⟨0, 0, 0, 1⟩, lastPosition := ⟨1, 2, 3⟩,
    floorAltitude := 0, currentPressure := 0 }

/-- C2 counterexample: a failed frame advance at `c2Ctx` with head reading
`(1,0,0,0)` yields an output orientation `(-1,0,0,0)` — the fresh inverted
head-tracker reading, not the cached `(0,0,0,1)` — and leaves the
orientation cache mutated to that fresh value.  This refutes both the
wholesale-fallback and the caches-untouched parts of the claim. -/
theorem C2_counterexample :
    getPose c2Ctx ⟨1, 0, 0, 0⟩ ⟨false, true, zeroQuat, ⟨9, 9, 9⟩⟩
        = Except.ok (⟨⟨-1, 0, 0, 0⟩, ⟨1, 2, 3⟩⟩,
            { c2Ctx with lastOrientation := ⟨-1, 0, 0, 0⟩ }) ∧
    (⟨-1, 0, 0, 0⟩ : AlvrQuat) ≠ c2Ctx.lastOrientation := by
  constructor
  · simp [getPose, c2Ctx, lastKnownPose, inverseQuat, headTrackerQuat]
  · simp only [c2Ctx, ne_eq, AlvrQuat.mk.injEq]
    norm_num

/-- C2 witness: the amended theorem applied at `c2Ctx` with a failed frame
advance. -/
theorem C2_witness :
    ∃ pose ctx2,
      getPose c2Ctx ⟨1, 0, 0, 0⟩ ⟨false, true, zeroQuat, ⟨9, 9, 9⟩⟩
          = Except.ok (pose, ctx2) ∧
      pose.position = c2Ctx.lastPosition ∧
      ctx2.lastPosition = c2Ctx.lastPosition ∧
      pose.orientation = inverseQuat ⟨1, 0, 0, 0⟩ ∧
      ctx2.lastOrientation = inverseQuat ⟨1, 0, 0, 0⟩ := by
  obtain ⟨pose, ctx2, hgp, hpos, hlast, _, hor⟩ :=
    C2_failure_fallback c2Ctx ⟨1, 0, 0, 0⟩ ⟨false, true, zeroQuat, ⟨9, 9, 9⟩⟩
      rfl rfl rfl (Or.inl rfl)
  exact ⟨pose, ctx2, hgp, hpos, hlast, (hor rfl).1, (hor rfl).2⟩

/-! ## Claim C10: barometric override is not reflected in the fallback cache -/

/-- The barometric formula at the reference pressure itself gives altitude
zero: `(p0 / p0) ^ c = 1`. -/
theorem pressureToAltitude_self :
    pressureToAltitude SEA_LEVEL_PRESSURE SEA_LEVEL_PRESSURE = 0 := by
  unfold pressureToAltitude SEA_LEVEL_PRESSURE
  rw [div_self (by norm_num), Real.one_rpow]
  ring

/-- C10: on a successful camera-tracking read with barometer altitude
correction enabled, the returned pose's vertical component is the
barometric altitude while the last-known-position cache keeps the
camera-derived position (including its vertical component); consequently,
whenever the barometric altitude differs from the camera's vertical
component, a tracking failure on the next call returns a vertical position
that differs from the previous successful call's output. -/
theorem C10_baro_override_not_cached (ctx : PoseCtx) (headQ headQ2 : AlvrQuat)
    (ar ar2 : ArReadings)
    (h1 : ctx.arcoreEnabled = true) (h2 : ctx.arSessionPresent = true)
    (h3 : ctx.eglContextPresent = true) (h4 : ctx.useBarometerAltitudeTracking = true)
    (h5 : ar.updateSuccess = true) (h6 : ar.trackingOk = true)
    (h7 : ar2.updateSuccess = false)
    (hdiff : getAltitudeFromBarometer ctx ≠ ar.camPosition.y) :
    ∃ pose ctx2, getPose ctx headQ ar = Except.ok (pose, ctx2) ∧
      pose.position.y = getAltitudeFromBarometer ctx ∧
      ctx2.lastPosition = ar.camPosition ∧
      ∃ pose2 ctx3, getPose ctx2 headQ2 ar2 = Except.ok (pose2, ctx3) ∧
        pose2.position.y = ar.camPosition.y ∧
        pose2.position.y ≠ pose.position.y := by
  cases h8 : ctx.useARCoreOrientation
  · refine ⟨⟨inverseQuat (headTrackerQuat headQ),
        ⟨ar.camPosition.x, getAltitudeFromBarometer ctx, ar.camPosition.z⟩⟩,
      { ctx with lastOrientation := inverseQuat (headTrackerQuat headQ),
                 lastPosition := ar.camPosition }, ?_, rfl, rfl, ?_⟩
    · simp [getPose, h1, h2, h3, h4, h5, h6, h8]
    · refine ⟨lastKnownPose
          { ctx with lastOrientation := inverseQuat (headTrackerQuat headQ2),
                     lastPosition := ar.camPosition },
        { ctx with lastOrientation := inverseQuat (headTrackerQuat headQ2),
                   lastPosition := ar.camPosition }, ?_, rfl, ?_⟩
      · simp [getPose, h1, h2, h3, h7, h8, lastKnownPose]
      · exact fun hcontra => hdiff (by simpa [lastKnownPose] using hcontra.symm)
  · refine ⟨⟨ar.camOrientation,
        ⟨ar.camPosition.x, getAltitudeFromBarometer ctx, ar.camPosition.z⟩⟩,
      { ctx with lastOrientation := ar.camOrientation,
                 lastPosition := ar.camPosition }, ?_, rfl, rfl, ?_⟩
    · simp [getPose, h1, h2, h3, h4, h5, h6, h8]
    · refine ⟨lastKnownPose
          { ctx with lastOrientation := ar.camOrientation,
                     lastPosition := ar.camPosition },
        { ctx with lastOrientation := ar.camOrientation,
                   lastPosition := ar.camPosition }, ?_, rfl, ?_⟩
      · simp [getPose, h1, h2, h3, h7, h8, lastKnownPose]
      · exact fun hcontra => hdiff (by simpa [lastKnownPose] using hcontra.symm)

/-- A live context whose barometric altitude (7) differs from the camera's
vertical position (5): the floor altitude is calibrated at -7 and the
current pressure sits at the sea-level reference, so the relative altitude
is `0 - (-7) = 7`. -/
def c10Ctx : PoseCtx :=
  { arcoreEnabled := true, arSessionPresent := true, eglContextPresent := true,
    useARCoreOrientation := false, useBarometerAltitudeTracking := true,
    lastOrientation := zeroQuat, lastPosition := zeroVec,
    floorAltitude := -7, currentPressure := SEA_LEVEL_PRESSURE }

/-- C10 witness: the theorem applied at `c10Ctx` with camera position
`(4, 5, 6)` followed by a failed frame advance. -/
theorem C10_witness :
    ∃ pose ctx2, getPose c10Ctx ⟨0, 0, 0, 1⟩ ⟨true, true, zeroQuat, ⟨4, 5, 6⟩⟩
        = Except.ok (pose, ctx2) ∧
      pose.position.y = getAltitudeFromBarometer c10Ctx ∧
      ctx2.lastPosition = (⟨4, 5, 6⟩ : Vec3) ∧
      ∃ pose2 ctx3, getPose ctx2 ⟨0, 0, 0, 1⟩ ⟨false, true, zeroQuat, zeroVec⟩
          = Except.ok (pose2, ctx3) ∧
        pose2.position.y = (5 : ℝ) ∧
        pose2.position.y ≠ pose.position.y := by
  have hdiff : getAltitudeFromBarometer c10Ctx ≠ (5 : ℝ) := by
    unfold getAltitudeFromBarometer c10Ctx
    rw [pressureToAltitude_self]
    norm_num
  exact C10_baro_override_not_cached c10Ctx ⟨0, 0, 0, 1⟩ ⟨0, 0, 0, 1⟩
    ⟨true, true, zeroQuat, ⟨4, 5, 6⟩⟩ ⟨false, true, zeroQuat, zeroVec⟩
    rfl rfl rfl rfl rfl rfl rfl hdiff

/-! ## Claim C5: ViewConfigComputer eye position -/

/-- For a unit quaternion, the source's `quatVecMultiply` computes exactly
the spec's rotation (the quaternion sandwich product). -/
theorem quatVecMultiply_eq_specRotate (q : AlvrQuat) (v : Vec3)
    (h : IsUnitQuat q) :
    quatVecMultiply q v = specRotate q v := by
  obtain ⟨x, y, z, w⟩ := q
  obtain ⟨vx, vy, vz⟩ := v
  unfold IsUnitQuat at h
  simp only at h
  simp only [quatVecMultiply, specRotate, quatMul, quatConj, cross]
  refine Vec3.ext ?_ ?_ ?_ <;> simp only
  · linear_combination (-vx) * h
  · linear_combination (-vy) * h
  · linear_combination (-vz) * h

/-- C5: for every head pose with a unit orientation quaternion and every
pair of eye offsets, `updateViewConfigs` produces per-eye poses whose
orientation equals the head orientation and whose position is
`headPos - rotate(headOrientation, (offset, 0, 0))` with `FLOOR_HEIGHT`
added to the y component, where `rotate` is the spec's quaternion
rotation. -/
theorem C5_view_config (headPose : AlvrPose) (offL offR : ℝ)
    (fovs : AlvrFov × AlvrFov) (h : IsUnitQuat headPose.orientation) :
    ((updateViewConfigsFromPose headPose (offL, offR) fovs).1.pose.orientation
        = headPose.orientation ∧
     (updateViewConfigsFromPose headPose (offL, offR) fovs).1.pose.position.x
        = headPose.position.x - (specRotate headPose.orientation ⟨offL, 0, 0⟩).x ∧
     (updateViewConfigsFromPose headPose (offL, offR) fovs).1.pose.position.y
        = headPose.position.y - (specRotate headPose.orientation ⟨offL, 0, 0⟩).y
            + FLOOR_HEIGHT ∧
     (updateViewConfigsFromPose headPose (offL, offR) fovs).1.pose.position.z
        = headPose.position.z - (specRotate headPose.orientation ⟨offL, 0, 0⟩).z) ∧
    ((updateViewConfigsFromPose headPose (offL, offR) fovs).2.pose.orientation
        = headPose.orientation ∧
     (updateViewConfigsFromPose headPose (offL, offR) fovs).2.pose.position.x
        = headPose.position.x - (specRotate headPose.orientation ⟨offR, 0, 0⟩).x ∧
     (updateViewConfigsFromPose headPose (offL, offR) fovs).2.pose.position.y
        = headPose.position.y - (specRotate headPose.orientation ⟨offR, 0, 0⟩).y
            + FLOOR_HEIGHT ∧
     (updateViewConfigsFromPose headPose (offL, offR) fovs).2.pose.position.z
        = headPose.position.z - (specRotate headPose.orientation ⟨offR, 0, 0⟩).z) := by
  have hl := quatVecMultiply_eq_specRotate headPose.orientation ⟨offL, 0, 0⟩ h
  have hr := quatVecMultiply_eq_specRotate headPose.orientation ⟨offR, 0, 0⟩ h
  refine ⟨⟨rfl, ?_, ?_, ?_⟩, ⟨rfl, ?_, ?_, ?_⟩⟩ <;>
    simp only [updateViewConfigsFromPose, offsetPosWithQuat, hl, hr] <;> ring

/-- C5 witness: with identity head orientation, zero head position and eye
offset `(0.03, 0, 0)`, the eye position is `(-0.03, 1.5, 0)` (the
`FLOOR_HEIGHT` constant is 1.5) and the eye orientation equals the head
orientation. -/
theorem C5_witness :
    IsUnitQuat (⟨0, 0, 0, 1⟩ : AlvrQuat) ∧
    (updateViewConfigsFromPose ⟨⟨0, 0, 0, 1⟩, ⟨0, 0, 0⟩⟩ (0.03, -0.03)
        (zeroFov, zeroFov)).1.pose.position = ⟨-0.03, 1.5, 0⟩ ∧
    (updateViewConfigsFromPose ⟨⟨0, 0, 0, 1⟩, ⟨0, 0, 0⟩⟩ (0.03, -0.03)
        (zeroFov, zeroFov)).1.pose.orientation = ⟨0, 0, 0, 1⟩ := by
  have hu : IsUnitQuat (⟨0, 0, 0, 1⟩ : AlvrQuat) := by
    unfold IsUnitQuat
    norm_num
  obtain ⟨⟨ho, hx, hy, hz⟩, -⟩ :=
    C5_view_config ⟨⟨0, 0, 0, 1⟩, ⟨0, 0, 0⟩⟩ 0.03 (-0.03) (zeroFov, zeroFov) hu
  have hrot : specRotate ⟨0, 0, 0, 1⟩ ⟨(0.03 : ℝ), 0, 0⟩ = ⟨0.03, 0, 0⟩ := by
    refine Vec3.ext ?_ ?_ ?_ <;> simp [specRotate, quatMul, quatConj]
  refine ⟨hu, ?_, ho⟩
  refine Vec3.ext ?_ ?_ ?_
  · rw [hx, hrot]
    norm_num
  · rw [hy, hrot]
    norm_num [FLOOR_HEIGHT]
  · rw [hz, hrot]
    norm_num

/-! ## Claim C4: the lobby render path discards the eye offset -/

/-- C4 (code evaluation): in the lobby branch of `renderNative` the
assignment `viewInputs[eye].pose = pose` overwrites the position previously
computed by `offsetPosWithQuat`, so the view pose handed to
`alvr_render_lobby_opengl` is the unmodified head pose for both eyes.  At
the concrete failing input (identity head orientation at the origin, eye
offset 0.03) the handed position is `(0, 0, 0)`, not the
`(-0.03, 1.5, 0)` that the ViewConfigComputer rule — applied by
`updateViewConfigs` on the dispatch path — would give. -/
theorem C4_lobby_offset_discarded :
    (∀ (pose : AlvrPose) (eyeOffset : ℝ) (fov : AlvrFov),
      (lobbyViewInput pose eyeOffset fov).pose = pose) ∧
    (lobbyViewInput ⟨⟨0, 0, 0, 1⟩, ⟨0, 0, 0⟩⟩ 0.03 zeroFov).pose.position
        = ⟨0, 0, 0⟩ ∧
    (lobbyViewInput ⟨⟨0, 0, 0, 1⟩, ⟨0, 0, 0⟩⟩ 0.03 zeroFov).pose.position
        ≠ offsetPosWithQuat ⟨0, 0, 0, 1⟩ ⟨0.03, 0, 0⟩ ⟨0, 0, 0⟩ := by
  refine ⟨fun pose eyeOffset fov => rfl, rfl, ?_⟩
  have hoff : offsetPosWithQuat (⟨0, 0, 0, 1⟩ : AlvrQuat) ⟨(0.03 : ℝ), 0, 0⟩ ⟨0, 0, 0⟩
      = ⟨-0.03, 1.5, 0⟩ := by
    refine Vec3.ext ?_ ?_ ?_ <;>
      simp [offsetPosWithQuat, quatVecMultiply, cross, FLOOR_HEIGHT]
  rw [hoff]
  simp only [lobbyViewInput, ne_eq, Vec3.mk.injEq, not_and]
  intro hcontra
  norm_num at hcontra

/-! ## Claim C3: altitude calibration on the sample sequence
[1013.25, 1010, 1005] -/

/-- The floor-altitude component of one pressure sample step. -/
theorem onPressureSample_floorAltitude (ctx : PoseCtx) (p : ℝ) :
    (onPressureSample ctx p).floorAltitude =
      if ctx.floorAltitude = 0 then pressureToAltitude SEA_LEVEL_PRESSURE p
      else ctx.floorAltitude := by
  unfold onPressureSample
  split <;> rfl

/-- The current-pressure component of one pressure sample step. -/
theorem onPressureSample_currentPressure (ctx : PoseCtx) (p : ℝ) :
    (onPressureSample ctx p).currentPressure = p := by
  unfold onPressureSample
  split <;> rfl

/-- The barometric altitude at 1010 hPa relative to the 1013.25 hPa
reference is strictly positive (the pressure ratio is below one, so its
real power is below one). -/
theorem pressureToAltitude_1010_pos :
    0 < pressureToAltitude SEA_LEVEL_PRESSURE 1010 := by
  unfold pressureToAltitude SEA_LEVEL_PRESSURE
  have h1 : ((1010 : ℝ) / 1013.25) ^ ((1 : ℝ) / 5.255) < 1 :=
    Real.rpow_lt_one (by norm_num) (by norm_num) (by norm_num)
  nlinarith

/-- An uncalibrated sensor context (floorAltitude and currentPressure both
zero, the `NativeContext` field initializers). -/
def c3Ctx : PoseCtx :=
  { arcoreEnabled := true, arSessionPresent := true, eglContextPresent := true,
    useARCoreOrientation := false, useBarometerAltitudeTracking := true,
    lastOrientation := zeroQuat, lastPosition := zeroVec,
    floorAltitude := 0, currentPressure := 0 }

/-- Feeding the first sample 1013.25 — exactly the sea-level reference —
computes a floor altitude of exactly 0, the uncalibrated sentinel. -/
theorem c3_floor_after_first :
    (onPressureSample c3Ctx 1013.25).floorAltitude = 0 := by
  rw [onPressureSample_floorAltitude, if_pos (show c3Ctx.floorAltitude = 0 from rfl)]
  exact pressureToAltitude_self

/-- Because the first sample left the sentinel in place, the second sample
1010 re-runs the calibration. -/
theorem c3_floor_after_second :
    (onPressureSample (onPressureSample c3Ctx 1013.25) 1010).floorAltitude
      = pressureToAltitude SEA_LEVEL_PRESSURE 1010 := by
  rw [onPressureSample_floorAltitude, if_pos c3_floor_after_first]

/-- The third sample 1005 no longer changes the floor altitude. -/
theorem c3_floor_after_third :
    (onPressureSample (onPressureSample (onPressureSample c3Ctx 1013.25) 1010)
        1005).floorAltitude = pressureToAltitude SEA_LEVEL_PRESSURE 1010 := by
  rw [onPressureSample_floorAltitude, c3_floor_after_second,
    if_neg (ne_of_gt pressureToAltitude_1010_pos)]

/-- C3 counterexample: feeding [1013.25, 1010, 1005] to the uncalibrated
estimator, the floor altitude is NOT fixed after the first sample (the
first sample computes the sentinel value 0 and the second sample
recalibrates), and the altitude after the third sample is NOT
`altitudeFromPressure(1013.25, 1005) - altitudeFromPressure(1013.25,
1013.25)`. -/
theorem C3_counterexample :
    (onPressureSample (onPressureSample c3Ctx 1013.25) 1010).floorAltitude
        ≠ (onPressureSample c3Ctx 1013.25).floorAltitude ∧
    getAltitudeFromBarometer
        (onPressureSample (onPressureSample (onPressureSample c3Ctx 1013.25) 1010) 1005)
      ≠ pressureToAltitude SEA_LEVEL_PRESSURE 1005
          - pressureToAltitude SEA_LEVEL_PRESSURE 1013.25 := by
  constructor
  · rw [c3_floor_after_second, c3_floor_after_first]
    exact ne_of_gt pressureToAltitude_1010_pos
  · unfold getAltitudeFromBarometer
    rw [c3_floor_after_third, onPressureSample_currentPressure,
      show (1013.25 : ℝ) = SEA_LEVEL_PRESSURE from rfl, pressureToAltitude_self]
    intro hcontra
    have := pressureToAltitude_1010_pos
    nlinarith

/-- C3 (amended): on the sample sequence [1013.25, 1010, 1005], the first
sample computes floor altitude 0 — which is the uncalibrated sentinel, so
calibration re-triggers on the second sample; the floor altitude is fixed
from the second sample on, and `currentAltitude()` after the third sample
equals `altitudeFromPressure(1013.25, 1005) - altitudeFromPressure(1013.25,
1010)`. -/
theorem C3_altitude_calibration :
    (onPressureSample c3Ctx 1013.25).floorAltitude = 0 ∧
    (onPressureSample (onPressureSample (onPressureSample c3Ctx 1013.25) 1010)
        1005).floorAltitude
      = (onPressureSample (onPressureSample c3Ctx 1013.25) 1010).floorAltitude ∧
    getAltitudeFromBarometer
        (onPressureSample (onPressureSample (onPressureSample c3Ctx 1013.25) 1010) 1005)
      = pressureToAltitude SEA_LEVEL_PRESSURE 1005
          - pressureToAltitude SEA_LEVEL_PRESSURE 1010 := by
  refine ⟨c3_floor_after_first, ?_, ?_⟩
  · rw [c3_floor_after_third, c3_floor_after_second]
  · unfold getAltitudeFromBarometer
    rw [c3_floor_after_third, onPressureSample_currentPressure]

end PhoneVR
